import Mathlib

/-!
Shallow embedding of `verify_sessions.py`, a Playwright-based end-to-end
verification harness.  The harness drives a browser through a fixed workflow
(select repository, fill title, submit), waits for navigation, captures
screenshots, and checks that a `.json` session artifact exists under
`<home>/.viba/sessions`.

The external world (the application under test, the browser, the filesystem)
is modelled by an `Env` record of outcomes: which elements become visible,
whether navigation happens, what the sessions directory contains, whether
each screenshot call succeeds.  The harness itself is deterministic given
those outcomes, so `test_session_creation` and `runMain` are pure functions
from `Env` to an event trace plus a result.  Every observable action of the
python code (navigation, visibility assertion, click, fill, waits, mkdir,
screenshot, directory listing, printing, browser close) is recorded as an
event, in the order the source performs it.
-/

namespace VerifySessions

/-- One observable action performed by the harness, in source order. -/
inductive Ev where
  | gotoHome
  | expectVisible (target : String)
  | click (target : String)
  | fill (target : String) (value : String)
  | waitForUrl (pattern : String)
  | waitTimeout (ms : Nat)
  | mkdirVerification
  | screenshot (path : String)
  | listDir (path : String)
  | printLine (s : String)
  | browserClose
  deriving DecidableEq, Repr

/-- The failure classes a run can raise (all become `Exception` in python):
navigation failure, an `expect(...).to_be_visible()` timeout, a click or
fill failure, the `wait_for_url` timeout, a screenshot failure, the
`FileNotFoundError` that `os.listdir` raises on a missing directory, and the
explicit `Exception("No session file created!")`. -/
inductive Err where
  | gotoFailed
  | elementNotVisible (target : String)
  | clickFailed (target : String)
  | fillFailed (target : String)
  | navTimeout (pattern : String)
  | screenshotFailed (path : String)
  | fsError (path : String)
  | artifactMissing
  deriving DecidableEq, Repr

/-- Outcomes of the external world for one run: the harness observes these
through its blocking calls.  `sessionsListing` is the listing of
`<home>/.viba/sessions` at verification time (meaningful only when
`sessionsDirExists` is true). -/
structure Env where
  gotoOk : Bool
  repoVisible : Bool
  repoClickOk : Bool
  titleVisible : Bool
  fillOk : Bool
  startBtnClickOk : Bool
  navOk : Bool
  verificationDirExists : Bool
  successShotOk : Bool
  failShotOk : Bool
  home : String
  sessionsDirExists : Bool
  sessionsListing : List String
  deriving Repr

/-- `os.path.join(os.path.expanduser("~"), ".viba", "sessions")`. -/
def sessionsDirPath (home : String) : String :=
  home ++ "/.viba/sessions"

/-- Python `repr` of a list of strings, as interpolated by the f-string
`f"Session files: {files}"`. -/
def pyListRepr (files : List String) : String :=
  "[" ++ String.intercalate ", " (files.map (fun f => "\x27" ++ f ++ "\x27")) ++ "]"

/-- The line printed by `print(f"Session files: {files}")`. -/
def sessionFilesLine (files : List String) : String :=
  "Session files: " ++ pyListRepr files

/-- Python `s.endswith(p)`: string suffix test, expressed over the
character lists so that it is kernel-computable. -/
def strEndsWith (s p : String) : Bool :=
  List.isSuffixOf p.data s.data

/-- `any(f.endswith(".json") for f in files)`. -/
def hasJsonFile (files : List String) : Bool :=
  files.any (fun f => strEndsWith f ".json")

/-- The body of `test_session_creation(page)`: returns the trace of actions
performed and `some e` when the python function raises `e`, `none` when it
returns normally.  Each branch mirrors one statement of the source, in
source order. -/
def test_session_creation (env : Env) : List Ev × Option Err :=
  let tr := [Ev.gotoHome]
  if !env.gotoOk then (tr, some Err.gotoFailed) else
  let tr := tr ++ [Ev.expectVisible "test-repo"]
  if !env.repoVisible then (tr, some (Err.elementNotVisible "test-repo")) else
  let tr := tr ++ [Ev.click "test-repo"]
  if !env.repoClickOk then (tr, some (Err.clickFailed "test-repo")) else
  let tr := tr ++ [Ev.expectVisible "Task Title"]
  if !env.titleVisible then (tr, some (Err.elementNotVisible "Task Title")) else
  let tr := tr ++ [Ev.fill "Task Title" "Test Session"]
  if !env.fillOk then (tr, some (Err.fillFailed "Task Title")) else
  let tr := tr ++ [Ev.click "Start Session"]
  if !env.startBtnClickOk then (tr, some (Err.clickFailed "Start Session")) else
  let tr := tr ++ [Ev.waitForUrl "**/session?*"]
  if !env.navOk then (tr, some (Err.navTimeout "**/session?*")) else
  let tr := tr ++ [Ev.waitTimeout 2000]
  let tr := if env.verificationDirExists then tr else tr ++ [Ev.mkdirVerification]
  let tr := tr ++ [Ev.screenshot "verification/session_created.png"]
  if !env.successShotOk then
    (tr, some (Err.screenshotFailed "verification/session_created.png")) else
  let tr := tr ++ [Ev.listDir (sessionsDirPath env.home)]
  if !env.sessionsDirExists then (tr, some (Err.fsError (sessionsDirPath env.home))) else
  let tr := tr ++ [Ev.printLine (sessionFilesLine env.sessionsListing)]
  if !hasJsonFile env.sessionsListing then (tr, some Err.artifactMissing) else
  (tr, none)

/-- A human-readable message for each failure class (the `{e}` interpolation
of the `except` block; only `artifactMissing`'s text is fixed by the
source, the others are produced by the libraries). -/
def errMsg : Err → String
  | Err.gotoFailed => "net::ERR_CONNECTION_REFUSED at http://localhost:3000"
  | Err.elementNotVisible t => "expected to be visible: " ++ t
  | Err.clickFailed t => "click failed: " ++ t
  | Err.fillFailed t => "fill failed: " ++ t
  | Err.navTimeout p => "Timeout while waiting for URL " ++ p
  | Err.screenshotFailed p => "screenshot failed: " ++ p
  | Err.fsError p => "[Errno 2] No such file or directory: \x27" ++ p ++ "\x27"
  | Err.artifactMissing => "No session file created!"

/-- The line printed by `print(f"Verification failed: {e}")`. -/
def failLine (e : Err) : String :=
  "Verification failed: " ++ errMsg e

/-- The `__main__` block: runs `test_session_creation`, prints the report,
attempts the failure screenshot on the failure path, and closes the browser
in `finally`.  The returned `Bool` is true when an exception propagates out
of the run (which in the source happens exactly when the failure-path
`page.screenshot` itself raises inside the `except` block). -/
def runMain (env : Env) : List Ev × Bool :=
  match (test_session_creation env).2 with
  | none =>
      ((test_session_creation env).1 ++
        [Ev.printLine "Verification successful!", Ev.browserClose], false)
  | some e =>
      ((test_session_creation env).1 ++
        [Ev.printLine (failLine e),
         Ev.screenshot "verification/failure.png", Ev.browserClose],
       !env.failShotOk)

/-- All lines printed to the terminal during a trace. -/
def printedLines (tr : List Ev) : List String :=
  tr.filterMap (fun e => match e with | Ev.printLine s => some s | _ => none)

/-- The UI phase (navigate, select repo, fill title, submit, URL wait)
completes without a failure. -/
def uiFlowOk (env : Env) : Bool :=
  env.gotoOk && env.repoVisible && env.repoClickOk && env.titleVisible &&
    env.fillOk && env.startBtnClickOk && env.navOk

/-- A fully successful environment, used for concrete evaluations. -/
def okEnv : Env :=
  { gotoOk := true, repoVisible := true, repoClickOk := true,
    titleVisible := true, fillOk := true, startBtnClickOk := true,
    navOk := true, verificationDirExists := false, successShotOk := true,
    failShotOk := true, home := "/home/user", sessionsDirExists := true,
    sessionsListing := ["abc.json"] }

/-- The line printed by the orchestrator's report statement for a run. -/
def reportLine (env : Env) : String :=
  match (test_session_creation env).2 with
  | none => "Verification successful!"
  | some e => failLine e

/-! ## Helper lemmas -/

theorem runMain_success (env : Env) (h : (test_session_creation env).2 = none) :
    runMain env = ((test_session_creation env).1 ++
      [Ev.printLine "Verification successful!", Ev.browserClose], false) := by
  unfold runMain
  rw [h]

theorem runMain_failure (env : Env) (e : Err)
    (h : (test_session_creation env).2 = some e) :
    runMain env = ((test_session_creation env).1 ++
      [Ev.printLine (failLine e), Ev.screenshot "verification/failure.png",
       Ev.browserClose], !env.failShotOk) := by
  unfold runMain
  rw [h]

theorem success_characterization (env : Env) :
    (test_session_creation env).2 = none ↔
      (uiFlowOk env = true ∧ env.successShotOk = true ∧
        env.sessionsDirExists = true ∧ hasJsonFile env.sessionsListing = true) := by
  obtain ⟨g, rv, rc, tv, fo, sb, nv, vd, ss, fs, hm, sd, ls⟩ := env
  cases g
  · simp [test_session_creation, uiFlowOk]
  cases rv
  · simp [test_session_creation, uiFlowOk]
  cases rc
  · simp [test_session_creation, uiFlowOk]
  cases tv
  · simp [test_session_creation, uiFlowOk]
  cases fo
  · simp [test_session_creation, uiFlowOk]
  cases sb
  · simp [test_session_creation, uiFlowOk]
  cases nv
  · simp [test_session_creation, uiFlowOk]
  cases ss
  · simp [test_session_creation, uiFlowOk]
  cases sd
  · simp [test_session_creation, uiFlowOk]
  cases hls : hasJsonFile ls
  · simp [test_session_creation, uiFlowOk, hls]
  · simp [test_session_creation, uiFlowOk, hls]

theorem success_trace (env : Env) (h : (test_session_creation env).2 = none) :
    (test_session_creation env).1 =
      [Ev.gotoHome, Ev.expectVisible "test-repo", Ev.click "test-repo",
       Ev.expectVisible "Task Title", Ev.fill "Task Title" "Test Session",
       Ev.click "Start Session", Ev.waitForUrl "**/session?*", Ev.waitTimeout 2000] ++
      (if env.verificationDirExists then [] else [Ev.mkdirVerification]) ++
      [Ev.screenshot "verification/session_created.png",
       Ev.listDir (sessionsDirPath env.home),
       Ev.printLine (sessionFilesLine env.sessionsListing)] := by
  rw [success_characterization] at h
  obtain ⟨hui, hss, hsd, hjson⟩ := h
  obtain ⟨g, rv, rc, tv, fo, sb, nv, vd, ss, fs, hm, sd, ls⟩ := env
  simp only [uiFlowOk, Bool.and_eq_true] at hui
  obtain ⟨⟨⟨⟨⟨⟨hg, hrv⟩, hrc⟩, htv⟩, hfo⟩, hsb⟩, hnv⟩ := hui
  simp only at hg hrv hrc htv hfo hsb hnv hss hsd
  subst hg hrv hrc htv hfo hsb hnv hss hsd
  cases vd <;> simp [test_session_creation, hjson]

theorem browserClose_not_in_test (env : Env) :
    Ev.browserClose ∉ (test_session_creation env).1 := by
  obtain ⟨g, rv, rc, tv, fo, sb, nv, vd, ss, fs, hm, sd, ls⟩ := env
  cases g
  · simp [test_session_creation]
  cases rv
  · simp [test_session_creation]
  cases rc
  · simp [test_session_creation]
  cases tv
  · simp [test_session_creation]
  cases fo
  · simp [test_session_creation]
  cases sb
  · simp [test_session_creation]
  cases nv
  · simp [test_session_creation]
  cases ss
  · cases vd <;> simp [test_session_creation]
  cases sd
  · cases vd <;> simp [test_session_creation]
  cases hls : hasJsonFile ls
  · cases vd <;> simp [test_session_creation, hls]
  · cases vd <;> simp [test_session_creation, hls]

theorem printedLines_append (a b : List Ev) :
    printedLines (a ++ b) = printedLines a ++ printedLines b := by
  simp [printedLines]

theorem printed_test (env : Env) :
    printedLines (test_session_creation env).1 =
      if (uiFlowOk env && env.successShotOk && env.sessionsDirExists) = true then
        [sessionFilesLine env.sessionsListing] else [] := by
  obtain ⟨g, rv, rc, tv, fo, sb, nv, vd, ss, fs, hm, sd, ls⟩ := env
  cases g
  · simp [test_session_creation, printedLines, uiFlowOk]
  cases rv
  · simp [test_session_creation, printedLines, uiFlowOk]
  cases rc
  · simp [test_session_creation, printedLines, uiFlowOk]
  cases tv
  · simp [test_session_creation, printedLines, uiFlowOk]
  cases fo
  · simp [test_session_creation, printedLines, uiFlowOk]
  cases sb
  · simp [test_session_creation, printedLines, uiFlowOk]
  cases nv
  · simp [test_session_creation, printedLines, uiFlowOk]
  cases ss
  · cases vd <;> simp [test_session_creation, printedLines, uiFlowOk]
  cases sd
  · cases vd <;> simp [test_session_creation, printedLines, uiFlowOk]
  cases hls : hasJsonFile ls
  · cases vd <;> simp [test_session_creation, printedLines, uiFlowOk, hls]
  · cases vd <;> simp [test_session_creation, printedLines, uiFlowOk, hls]

/-! ## Concrete environments used in counterexamples and witnesses -/

/-- A run in which the sessions directory is missing at verification time. -/
def noDirEnv : Env := { okEnv with sessionsDirExists := false }

/-- A run in which the repository item never becomes visible and the
failure-path screenshot call itself fails. -/
def badShotEnv : Env := { okEnv with repoVisible := false, failShotOk := false }

/-- A run in which the repository item never becomes visible and the
evidence directory does not exist. -/
def failNoDirEnv : Env :=
  { okEnv with repoVisible := false, verificationDirExists := false }

/-- A run in which the sessions directory lists no `.json` entry. -/
def txtEnv : Env := { okEnv with sessionsListing := ["notes.txt"] }

/-! ## Claims -/

/-- C6: on every exit path of a run — success, any caught step failure, or
the unexpected fault raised when the failure-path screenshot itself fails —
the browser acquired at startup is closed, as the final action of the run,
and it is closed only there. -/
theorem C6_browser_always_closed (env : Env) :
    ∃ pre, (runMain env).1 = pre ++ [Ev.browserClose] ∧ Ev.browserClose ∉ pre := by
  cases h : (test_session_creation env).2 with
  | none =>
      rw [runMain_success env h]
      refine ⟨(test_session_creation env).1 ++ [Ev.printLine "Verification successful!"],
        by simp, ?_⟩
      simp [browserClose_not_in_test env]
  | some e =>
      rw [runMain_failure env e h]
      refine ⟨(test_session_creation env).1 ++
        [Ev.printLine (failLine e), Ev.screenshot "verification/failure.png"],
        by simp, ?_⟩
      simp [browserClose_not_in_test env]

/-- C7: in every run in which navigation to the homepage succeeds but the
repository item never becomes visible, the run fails with the
element-not-visible diagnostic for the repository item, and no URL wait is
ever performed. -/
theorem C7_repo_not_visible (env : Env) (hg : env.gotoOk = true)
    (hr : env.repoVisible = false) :
    (test_session_creation env).2 = some (Err.elementNotVisible "test-repo") ∧
      ∀ p, Ev.waitForUrl p ∉ (runMain env).1 := by
  obtain ⟨g, rv, rc, tv, fo, sb, nv, vd, ss, fs, hm, sd, ls⟩ := env
  simp only at hg hr
  subst hg hr
  have hres : (test_session_creation
      ⟨true, false, rc, tv, fo, sb, nv, vd, ss, fs, hm, sd, ls⟩).2 =
        some (Err.elementNotVisible "test-repo") := by
    simp [test_session_creation]
  refine ⟨hres, fun p => ?_⟩
  rw [runMain_failure _ _ hres]
  simp [test_session_creation]

/-- C7 witness: the theorem applied to a concrete run with an invisible
repository item. -/
theorem C7_repo_not_visible_witness :
    (test_session_creation { okEnv with repoVisible := false }).2 =
        some (Err.elementNotVisible "test-repo") ∧
      Ev.waitForUrl "**/session?*" ∉ (runMain { okEnv with repoVisible := false }).1 :=
  ⟨(C7_repo_not_visible { okEnv with repoVisible := false } rfl rfl).1,
   (C7_repo_not_visible { okEnv with repoVisible := false } rfl rfl).2 "**/session?*"⟩

/-- C8: on the success path the run performs, in this strict order: the
interaction sequence (navigate, assert and select repository, assert and
fill title, submit), the session-view URL wait, the fixed 2000 ms settle
delay, the success-named screenshot capture (preceded by the conditional
directory creation), and only then the artifact verification (listing and
printing the sessions directory), followed by the success report and the
browser close. -/
theorem C8_phase_order (env : Env) (h : (test_session_creation env).2 = none) :
    (runMain env).1 =
      [Ev.gotoHome, Ev.expectVisible "test-repo", Ev.click "test-repo",
       Ev.expectVisible "Task Title", Ev.fill "Task Title" "Test Session",
       Ev.click "Start Session", Ev.waitForUrl "**/session?*", Ev.waitTimeout 2000] ++
      (if env.verificationDirExists then [] else [Ev.mkdirVerification]) ++
      [Ev.screenshot "verification/session_created.png",
       Ev.listDir (sessionsDirPath env.home),
       Ev.printLine (sessionFilesLine env.sessionsListing),
       Ev.printLine "Verification successful!", Ev.browserClose] := by
  rw [runMain_success env h]
  rw [success_trace env h]
  simp

/-- C8 witness: the full success trace of a concrete successful run. -/
theorem C8_phase_order_witness :
    (test_session_creation okEnv).2 = none ∧
      (runMain okEnv).1 =
        [Ev.gotoHome, Ev.expectVisible "test-repo", Ev.click "test-repo",
         Ev.expectVisible "Task Title", Ev.fill "Task Title" "Test Session",
         Ev.click "Start Session", Ev.waitForUrl "**/session?*", Ev.waitTimeout 2000] ++
        (if okEnv.verificationDirExists then [] else [Ev.mkdirVerification]) ++
        [Ev.screenshot "verification/session_created.png",
         Ev.listDir (sessionsDirPath okEnv.home),
         Ev.printLine (sessionFilesLine okEnv.sessionsListing),
         Ev.printLine "Verification successful!", Ev.browserClose] :=
  ⟨rfl, C8_phase_order okEnv rfl⟩

/-- C1 counterexample: in a run whose UI flow succeeds but whose sessions
directory is missing, the verifier raises the filesystem error from
`os.listdir`, not the artifact-missing diagnostic. -/
theorem C1_counterexample :
    (test_session_creation noDirEnv).2 =
        some (Err.fsError (sessionsDirPath "/home/user")) ∧
      (test_session_creation noDirEnv).2 ≠ some Err.artifactMissing := by
  exact ⟨rfl, by decide⟩

/-- C1 (amended): if the sessions directory does not exist at verification
time, `os.listdir` raises a filesystem error that escapes the verifier; the
orchestrator catches it, so the run still fails and reports that
filesystem-error diagnostic — not the artifact-missing diagnostic. -/
theorem C1_missing_dir_reported (env : Env) (hui : uiFlowOk env = true)
    (hshot : env.successShotOk = true) (hdir : env.sessionsDirExists = false) :
    (test_session_creation env).2 = some (Err.fsError (sessionsDirPath env.home)) ∧
      Ev.printLine (failLine (Err.fsError (sessionsDirPath env.home))) ∈
        (runMain env).1 ∧
      Err.fsError (sessionsDirPath env.home) ≠ Err.artifactMissing := by
  obtain ⟨g, rv, rc, tv, fo, sb, nv, vd, ss, fs, hm, sd, ls⟩ := env
  simp only [uiFlowOk, Bool.and_eq_true] at hui
  obtain ⟨⟨⟨⟨⟨⟨hg, hrv⟩, hrc⟩, htv⟩, hfo⟩, hsb⟩, hnv⟩ := hui
  simp only at hg hrv hrc htv hfo hsb hnv hshot hdir
  subst hg hrv hrc htv hfo hsb hnv hshot hdir
  have hres : (test_session_creation
      ⟨true, true, true, true, true, true, true, vd, true, fs, hm, false, ls⟩).2 =
        some (Err.fsError (sessionsDirPath hm)) := by
    cases vd <;> simp [test_session_creation]
  refine ⟨hres, ?_, by simp⟩
  rw [runMain_failure _ _ hres]
  simp

/-- C1 witness: the amended theorem applied to a concrete run with a
missing sessions directory. -/
theorem C1_missing_dir_reported_witness :
    (test_session_creation noDirEnv).2 =
        some (Err.fsError (sessionsDirPath noDirEnv.home)) ∧
      Ev.printLine (failLine (Err.fsError (sessionsDirPath noDirEnv.home))) ∈
        (runMain noDirEnv).1 ∧
      Err.fsError (sessionsDirPath noDirEnv.home) ≠ Err.artifactMissing :=
  C1_missing_dir_reported noDirEnv rfl rfl rfl

/-- C2 counterexample: a run whose sessions directory already held
`old.json` before the run and received nothing new still reports success,
so success does not imply a new `.json` entry relative to the before-run
listing. -/
theorem C2_counterexample :
    (test_session_creation { okEnv with sessionsListing := ["old.json"] }).2 =
        none ∧
      ¬ ∃ f, f ∈ ({ okEnv with sessionsListing := ["old.json"] } : Env).sessionsListing ∧
          f ∉ ["old.json"] := by
  refine ⟨rfl, ?_⟩
  rintro ⟨f, hf, hnf⟩
  simp at hf
  exact hnf (by simp [hf])

/-- C2 (amended): a run that reports success guarantees only that at least
one `.json`-suffixed entry is present in the sessions directory at
verification time; the harness never reads the directory before the run, so
no freshness relative to the before-run listing is established. -/
theorem C2_success_json_present (env : Env)
    (h : (test_session_creation env).2 = none) :
    hasJsonFile env.sessionsListing = true :=
  ((success_characterization env).1 h).2.2.2

/-- C2 witness: the amended theorem applied to a concrete successful run. -/
theorem C2_success_json_present_witness :
    (test_session_creation okEnv).2 = none ∧
      hasJsonFile okEnv.sessionsListing = true :=
  ⟨rfl, C2_success_json_present okEnv rfl⟩

/-- C3 counterexample: in a run where a step fails and the failure-path
screenshot itself fails, an error does propagate out of the run — the
screenshot failure is not swallowed. -/
theorem C3_counterexample : (runMain badShotEnv).2 = true := rfl

/-- C3 (amended): when a step fails, the orchestrator prints the original
failure diagnostic and then attempts the failure-path screenshot, so the
original diagnostic is always reported; but a failure of that screenshot
capture is not swallowed: it propagates out of the run (after the
`finally` browser close). -/
theorem C3_failure_path (env : Env) (e : Err)
    (h : (test_session_creation env).2 = some e) :
    (∃ a, (runMain env).1 = a ++ [Ev.printLine (failLine e),
        Ev.screenshot "verification/failure.png", Ev.browserClose]) ∧
      (runMain env).2 = !env.failShotOk := by
  rw [runMain_failure env e h]
  exact ⟨⟨(test_session_creation env).1, rfl⟩, rfl⟩

/-- C3 witness: the amended theorem applied to a concrete run whose
failure-path screenshot fails. -/
theorem C3_failure_path_witness :
    (∃ a, (runMain badShotEnv).1 =
        a ++ [Ev.printLine (failLine (Err.elementNotVisible "test-repo")),
              Ev.screenshot "verification/failure.png", Ev.browserClose]) ∧
      (runMain badShotEnv).2 = !badShotEnv.failShotOk :=
  C3_failure_path badShotEnv (Err.elementNotVisible "test-repo") rfl

/-- C4 counterexample: in a concrete successful run the Start Session click
is performed although no visibility assertion of the Start Session button
occurs anywhere in the run. -/
theorem C4_counterexample :
    Ev.click "Start Session" ∈ (test_session_creation okEnv).1 ∧
      Ev.expectVisible "Start Session" ∉ (test_session_creation okEnv).1 := by
  decide

/-- C4 (amended): whenever the submit click is performed, the run's first
six actions are exactly: navigate, assert the repository item visible,
click it, assert the title input visible, fill it, click the Start Session
button — so the repository selection and the title fill are each gated on a
visibility assertion of their target, while the Start Session click is
performed without any visibility assertion of the button. -/
theorem C4_gating (env : Env)
    (h : Ev.click "Start Session" ∈ (test_session_creation env).1) :
    (test_session_creation env).1.take 6 =
      [Ev.gotoHome, Ev.expectVisible "test-repo", Ev.click "test-repo",
       Ev.expectVisible "Task Title", Ev.fill "Task Title" "Test Session",
       Ev.click "Start Session"] ∧
      Ev.expectVisible "Start Session" ∉ (test_session_creation env).1 := by
  obtain ⟨g, rv, rc, tv, fo, sb, nv, vd, ss, fs, hm, sd, ls⟩ := env
  cases g
  · simp [test_session_creation] at h
  cases rv
  · simp [test_session_creation] at h
  cases rc
  · simp [test_session_creation] at h
  cases tv
  · simp [test_session_creation] at h
  cases fo
  · simp [test_session_creation] at h
  cases sb <;> cases nv <;> cases ss <;> cases sd <;> cases vd <;>
    cases hls : hasJsonFile ls <;> simp [test_session_creation, hls]

/-- C4 witness: the amended theorem applied to a concrete successful run. -/
theorem C4_gating_witness :
    Ev.click "Start Session" ∈ (test_session_creation okEnv).1 ∧
      ((test_session_creation okEnv).1.take 6 =
        [Ev.gotoHome, Ev.expectVisible "test-repo", Ev.click "test-repo",
         Ev.expectVisible "Task Title", Ev.fill "Task Title" "Test Session",
         Ev.click "Start Session"] ∧
        Ev.expectVisible "Start Session" ∉ (test_session_creation okEnv).1) :=
  ⟨by decide, C4_gating okEnv (by decide)⟩

/-- C5 counterexample: in a run that fails before the success screenshot
and whose evidence directory is absent, the failure screenshot is attempted
while no directory creation is ever performed by the harness. -/
theorem C5_counterexample :
    Ev.screenshot "verification/failure.png" ∈ (runMain failNoDirEnv).1 ∧
      Ev.mkdirVerification ∉ (runMain failNoDirEnv).1 := by
  decide

/-- C5 (amended): only the success-path call site creates the evidence
directory: when the flow reaches the success screenshot and the directory
is absent, the harness creates it as the action immediately preceding that
screenshot; on the failure path, the orchestrator performs only the report
print and the screenshot call (no directory creation) before the browser
close. -/
theorem C5_mkdir_only_success_site :
    (∀ env : Env, uiFlowOk env = true → env.verificationDirExists = false →
        (test_session_creation env).1.take 10 =
          [Ev.gotoHome, Ev.expectVisible "test-repo", Ev.click "test-repo",
           Ev.expectVisible "Task Title", Ev.fill "Task Title" "Test Session",
           Ev.click "Start Session", Ev.waitForUrl "**/session?*",
           Ev.waitTimeout 2000, Ev.mkdirVerification,
           Ev.screenshot "verification/session_created.png"]) ∧
      ∀ env : Env, ∀ e : Err, (test_session_creation env).2 = some e →
        (runMain env).1 = (test_session_creation env).1 ++
          [Ev.printLine (failLine e), Ev.screenshot "verification/failure.png",
           Ev.browserClose] := by
  constructor
  · intro env hui hvd
    obtain ⟨g, rv, rc, tv, fo, sb, nv, vd, ss, fs, hm, sd, ls⟩ := env
    simp only [uiFlowOk, Bool.and_eq_true] at hui
    obtain ⟨⟨⟨⟨⟨⟨hg, hrv⟩, hrc⟩, htv⟩, hfo⟩, hsb⟩, hnv⟩ := hui
    simp only at hg hrv hrc htv hfo hsb hnv hvd
    subst hg hrv hrc htv hfo hsb hnv hvd
    cases ss <;> cases sd <;> cases hls : hasJsonFile ls <;>
      simp [test_session_creation, hls]
  · intro env e h
    rw [runMain_failure env e h]

/-- C5 witness: the first part applied to a concrete run with an absent
evidence directory, the second to a concrete failing run. -/
theorem C5_mkdir_only_success_site_witness :
    ((test_session_creation okEnv).1.take 10 =
        [Ev.gotoHome, Ev.expectVisible "test-repo", Ev.click "test-repo",
         Ev.expectVisible "Task Title", Ev.fill "Task Title" "Test Session",
         Ev.click "Start Session", Ev.waitForUrl "**/session?*",
         Ev.waitTimeout 2000, Ev.mkdirVerification,
         Ev.screenshot "verification/session_created.png"]) ∧
      (runMain failNoDirEnv).1 = (test_session_creation failNoDirEnv).1 ++
        [Ev.printLine (failLine (Err.elementNotVisible "test-repo")),
         Ev.screenshot "verification/failure.png", Ev.browserClose] :=
  ⟨C5_mkdir_only_success_site.1 okEnv rfl rfl,
   C5_mkdir_only_success_site.2 failNoDirEnv (Err.elementNotVisible "test-repo") rfl⟩

/-- C9 counterexample: a concrete successful run prints two lines — the
session-files listing and the success report — not exactly one. -/
theorem C9_counterexample :
    printedLines (runMain okEnv).1 =
      ["Session files: [\x27abc.json\x27]", "Verification successful!"] ∧
      (printedLines (runMain okEnv).1).length ≠ 1 := by
  decide

/-- C9 (amended): each run prints exactly one terminal report line — the
success confirmation, or the failure message carrying the triggering
diagnostic — and, in addition, exactly one session-files listing line when
(and only when) the run reaches the directory listing. -/
theorem C9_printed_lines (env : Env) :
    printedLines (runMain env).1 =
      (if (uiFlowOk env && env.successShotOk && env.sessionsDirExists) = true then
          [sessionFilesLine env.sessionsListing] else []) ++ [reportLine env] := by
  cases h : (test_session_creation env).2 with
  | none =>
      rw [runMain_success env h]
      rw [show printedLines ((test_session_creation env).1 ++
            [Ev.printLine "Verification successful!", Ev.browserClose]) =
          printedLines (test_session_creation env).1 ++
            ["Verification successful!"] from by simp [printedLines]]
      rw [printed_test env]
      simp [reportLine, h]
  | some e =>
      rw [runMain_failure env e h]
      rw [show printedLines ((test_session_creation env).1 ++
            [Ev.printLine (failLine e), Ev.screenshot "verification/failure.png",
             Ev.browserClose]) =
          printedLines (test_session_creation env).1 ++ [failLine e] from by
            simp [printedLines]]
      rw [printed_test env]
      simp [reportLine, h]

/-- C10: in a run that fails only at the final artifact-verification step,
the success-named screenshot has already been captured before the failure,
and the failure screenshot is captured as well — so the success-named
evidence file does not imply the run passed. -/
theorem C10_success_shot_despite_failure (env : Env) (hui : uiFlowOk env = true)
    (hshot : env.successShotOk = true) (hdir : env.sessionsDirExists = true)
    (hjson : hasJsonFile env.sessionsListing = false) :
    (test_session_creation env).2 = some Err.artifactMissing ∧
      ∃ a b, (runMain env).1 =
        a ++ [Ev.screenshot "verification/session_created.png"] ++ b ++
          [Ev.screenshot "verification/failure.png", Ev.browserClose] := by
  obtain ⟨g, rv, rc, tv, fo, sb, nv, vd, ss, fs, hm, sd, ls⟩ := env
  simp only [uiFlowOk, Bool.and_eq_true] at hui
  obtain ⟨⟨⟨⟨⟨⟨hg, hrv⟩, hrc⟩, htv⟩, hfo⟩, hsb⟩, hnv⟩ := hui
  simp only at hg hrv hrc htv hfo hsb hnv hshot hdir hjson
  subst hg hrv hrc htv hfo hsb hnv hshot hdir
  have hres : (test_session_creation
      ⟨true, true, true, true, true, true, true, vd, true, fs, hm, true, ls⟩).2 =
        some Err.artifactMissing := by
    cases vd <;> simp [test_session_creation, hjson]
  refine ⟨hres, ?_⟩
  rw [runMain_failure _ _ hres]
  cases vd
  · exact ⟨[Ev.gotoHome, Ev.expectVisible "test-repo", Ev.click "test-repo",
      Ev.expectVisible "Task Title", Ev.fill "Task Title" "Test Session",
      Ev.click "Start Session", Ev.waitForUrl "**/session?*", Ev.waitTimeout 2000,
      Ev.mkdirVerification],
      [Ev.listDir (sessionsDirPath hm), Ev.printLine (sessionFilesLine ls),
       Ev.printLine (failLine Err.artifactMissing)],
      by simp [test_session_creation, hjson]⟩
  · exact ⟨[Ev.gotoHome, Ev.expectVisible "test-repo", Ev.click "test-repo",
      Ev.expectVisible "Task Title", Ev.fill "Task Title" "Test Session",
      Ev.click "Start Session", Ev.waitForUrl "**/session?*", Ev.waitTimeout 2000],
      [Ev.listDir (sessionsDirPath hm), Ev.printLine (sessionFilesLine ls),
       Ev.printLine (failLine Err.artifactMissing)],
      by simp [test_session_creation, hjson]⟩

/-- C10 witness: the theorem applied to a concrete run whose sessions
directory lists only a non-`.json` file. -/
theorem C10_success_shot_despite_failure_witness :
    (test_session_creation txtEnv).2 = some Err.artifactMissing ∧
      ∃ a b, (runMain txtEnv).1 =
        a ++ [Ev.screenshot "verification/session_created.png"] ++ b ++
          [Ev.screenshot "verification/failure.png", Ev.browserClose] :=
  C10_success_shot_despite_failure txtEnv rfl rfl rfl (by decide)

end VerifySessions
